import Mathlib

/-!
Shallow embedding of the Purchase Orchestration Controller from
`src/buying/src/Buy.tsx` (reservoir NFT sweep/buy sample).

The component's pieces are modelled as pure Lean functions:

* `handleOnChange` — the checkbox toggle on the selection list;
* `filterTokens` / `loadTokensClick` — the "Load tokens to buy" click
  handler (fetch result filtering and state updates);
* `setStateEmit` — the `setState` callback wired into `buyToken`,
  translating one step-notification into at most one progress message;
* `buy` — the `buy` function (signer guard, callback wiring, catch /
  log / rethrow);
* `buyTokensClick` — the "Buy Tokens" click handler (network / account
  preconditions, query construction, invocation of `buy`).

The external `buyToken` SDK call is opaque; one invocation of it is
modelled as a `ProcRun`: the ordered list of callback events it performs
(`setState` notifications, `handleSuccess`, `handleError`) followed by
either a normal resolution or a thrown error.
-/

namespace Buying

/-- Status of one SDK execution step (`Execute['steps'][i].status`). -/
inductive StepStatus
  | incomplete
  | complete
  | error
deriving DecidableEq, Repr

/-- One execution step reported by the SDK: a status and an optional
message (`step.message` may be `undefined` in TypeScript). -/
structure ExecutionStep where
  status : StepStatus
  message : Option String
deriving DecidableEq, Repr

/-- A JavaScript error value: either a `ReferenceError` or any other
error, each carrying its message. -/
inductive JsError
  | reference (msg : String)
  | generic (msg : String)
deriving DecidableEq, Repr

/-- The `setState` callback from `buy`:
`if (!steps) return; const currentStep = steps.find(s => s.status === 'incomplete');
if (currentStep) progressCallback(currentStep.message || '')`.
Returns the message passed to `progressCallback`, if any. -/
def setStateEmit (steps : Option (List ExecutionStep)) : Option String :=
  match steps with
  | none => none
  | some l =>
    (l.find? (fun s => s.status == StepStatus.incomplete)).map
      (fun s => s.message.getD "")

/-- One callback event performed by the external `buyToken` process
during a single invocation. -/
inductive ProcEvent
  | notify (steps : Option (List ExecutionStep))
  | success
  | error (msg : String)
deriving DecidableEq, Repr

/-- One complete invocation of the external process: the callback events
it performs in order, then either a normal resolution (`thrown = none`)
or a thrown error. -/
structure ProcRun where
  events : List ProcEvent
  thrown : Option JsError
deriving DecidableEq, Repr

/-- A message delivered to the progress observer, tagged by the callback
that emitted it (`setState`, `handleSuccess` or `handleError`). -/
inductive ObserverMsg
  | inProgress (s : String)
  | terminalSuccess
  | terminalError (s : String)
deriving DecidableEq, Repr

/-- The plain string the observer callback actually receives:
`handleSuccess` sends `"Success"`, `handleError` sends
`"Error: " ++ message`. -/
def ObserverMsg.text : ObserverMsg → String
  | .inProgress s => s
  | .terminalSuccess => "Success"
  | .terminalError s => "Error: " ++ s

/-- The observer message (if any) produced by one callback event, per the
wiring in `buy` (`setState` / `handleSuccess` / `handleError`). -/
def eventObserverMsg : ProcEvent → Option ObserverMsg
  | .notify steps => (setStateEmit steps).map ObserverMsg.inProgress
  | .success => some ObserverMsg.terminalSuccess
  | .error m => some (ObserverMsg.terminalError m)

/-- The ordered sequence of observer messages produced by the callback
events of one process invocation. -/
def runObserverMsgs (events : List ProcEvent) : List ObserverMsg :=
  events.filterMap eventObserverMsg

/-- The ordered sequence of plain strings handed to `progressCallback`
during one process invocation. -/
def runMessages (events : List ProcEvent) : List String :=
  (runObserverMsgs events).map ObserverMsg.text

/-- An error escaping the `buy` function: either one raised by `buy`'s
own precondition guard (`throw new ReferenceError('Missing a signer')`),
or one caught from the `buyToken` invocation and re-thrown
(`catch (err) { console.error(err); throw err }`). -/
inductive BuyError
  | raised (e : JsError)
  | rethrown (e : JsError)
deriving DecidableEq, Repr

/-- The query object built for `buyToken`: the taker address plus the
index-keyed token entries `tokens[i] = "<contract>:<tokenId>"`. -/
structure BuyingQuery where
  taker : String
  tokenEntries : List (String × String)
deriving DecidableEq, Repr

/-- Query construction from the Buy Tokens click handler:
`selectedTokenIds?.forEach((tokenId, index) =>
  query[`tokens[index]`] = `contract:tokenId`)`. -/
def buildQuery (taker contract : String) (selectedTokenIds : List String) :
    BuyingQuery :=
  { taker := taker
    tokenEntries := selectedTokenIds.enum.map
      (fun p => ("tokens[" ++ toString p.1 ++ "]",
                 contract ++ ":" ++ p.2)) }

/-- Everything observable about one call of the `buy` function. -/
structure BuyOutcome where
  invokedProcess : Bool
  messages : List ObserverMsg
  consoleErrors : List JsError
  result : Except BuyError Bool
deriving Repr

/-- The `buy` function from `Buy.tsx`: throws a `ReferenceError` when the
signer is absent (before contacting `buyToken`); otherwise invokes the
process, relaying its callbacks; a throw out of `buyToken` is caught,
logged via `console.error` and re-thrown; a normal resolution returns
`true`. -/
def buy (query : BuyingQuery) (signerPresent : Bool) (run : ProcRun) :
    BuyOutcome :=
  if !signerPresent then
    { invokedProcess := false
      messages := []
      consoleErrors := []
      result := Except.error (BuyError.raised (JsError.reference "Missing a signer")) }
  else
    match run.thrown with
    | none =>
      { invokedProcess := true
        messages := runObserverMsgs run.events
        consoleErrors := []
        result := Except.ok true }
    | some e =>
      { invokedProcess := true
        messages := runObserverMsgs run.events
        consoleErrors := [e]
        result := Except.error (BuyError.rethrown e) }

/-- The checkbox toggle `handleOnChange` from `Buy.tsx`: if the id is in
`selectedTokenIds`, remove every occurrence; else append it. -/
def handleOnChange (selectedTokenIds : List String) (tokenId : String) :
    List String :=
  if selectedTokenIds.contains tokenId then
    selectedTokenIds.filter (fun s => tokenId != s)
  else
    selectedTokenIds ++ [tokenId]

/-- One purchasable item as returned by `getTokens`: contract, token id,
and an optional floor ask price (a JavaScript number). -/
structure Token where
  contract : String
  tokenId : String
  floorAskPrice : Option ℚ
deriving DecidableEq, Repr

/-- JavaScript truthiness of the optional price, as tested by
`Boolean(floorAskPrice)`: `undefined` and `0` are falsy. -/
def jsTruthyPrice : Option ℚ → Bool
  | none => false
  | some q => q != 0

/-- `tokens.filter(({ floorAskPrice }) => Boolean(floorAskPrice))` from
the Load-tokens click handler. -/
def filterTokens (tokens : List Token) : List Token :=
  tokens.filter (fun t => jsTruthyPrice t.floorAskPrice)

/-- State touched by the "Load tokens to buy" click handler. -/
structure LoadResult where
  errorText : String
  loading : Bool
  tokens : List Token
  selectedTokenIds : List String
deriving DecidableEq, Repr

/-- The "Load tokens to buy" click handler: clears the error text, sets
then resets loading, filters the fetched tokens by price truthiness,
reports when none remain, and stores the filtered list. It performs no
write to `selectedTokenIds`. -/
def loadTokensClick (fetched : List Token) (prevSelected : List String) :
    LoadResult :=
  let filteredTokens := filterTokens fetched
  { errorText :=
      if filteredTokens.length == 0 then
        "There are no tokens available to purchase."
      else ""
    loading := false
    tokens := filteredTokens
    selectedTokenIds := prevSelected }

/-- Inputs to the "Buy Tokens" click handler: the wagmi hook values, the
component state it reads, and the behaviour of the external process for
this invocation. -/
structure ClickInput where
  activeChainId : Option Nat
  accountAddress : Option String
  isConnected : Bool
  signerPresent : Bool
  contract : String
  selectedTokenIds : List String
  progressText : String
  run : ProcRun
deriving DecidableEq, Repr

/-- Everything observable about one "Buy Tokens" click. -/
structure ClickResult where
  alerts : List String
  buyInvoked : Bool
  processInvoked : Bool
  messages : List ObserverMsg
  progressText : String
  loading : Bool
  thrownOut : Option BuyError
  consoleErrors : List JsError
deriving DecidableEq, Repr

/-- The wrong-network alert text from `Buy.tsx`. -/
def wrongNetworkAlert : String :=
  "You are connected to the wrong network. Please, switch to the Rinkeby Test Network."

/-- The "Buy Tokens" click handler: sets loading; aborts with an alert if
`activeChain?.id !== 4`; aborts silently if `account?.address` is absent;
resets the progress text, builds the query from the selection, awaits
`buy`, and resets loading — but only when `buy` resolves: a rejection of
`buy` escapes the handler, skipping `setLoading(false)`. -/
def buyTokensClick (inp : ClickInput) : ClickResult :=
  if inp.activeChainId != some 4 then
    { alerts := [wrongNetworkAlert]
      buyInvoked := false
      processInvoked := false
      messages := []
      progressText := inp.progressText
      loading := false
      thrownOut := none
      consoleErrors := [] }
  else
    match inp.accountAddress with
    | none =>
      { alerts := []
        buyInvoked := false
        processInvoked := false
        messages := []
        progressText := inp.progressText
        loading := false
        thrownOut := none
        consoleErrors := [] }
    | some taker =>
      let query := buildQuery taker inp.contract inp.selectedTokenIds
      let out := buy query inp.signerPresent inp.run
      { alerts := []
        buyInvoked := true
        processInvoked := out.invokedProcess
        messages := out.messages
        progressText := ((out.messages.map ObserverMsg.text).getLast?).getD ""
        loading := out.result matches Except.error _
        thrownOut := match out.result with
          | Except.ok _ => none
          | Except.error e => some e
        consoleErrors := out.consoleErrors }

/-- The displayed progress text after a sequence of `setState`
notifications: each notification that produces a message overwrites the
single stored string (`setProgressText`); one producing none leaves it
unchanged. -/
def applyNotifications (notifs : List (Option (List ExecutionStep)))
    (current : String) : String :=
  notifs.foldl
    (fun cur n =>
      match setStateEmit n with
      | none => cur
      | some m => m)
    current

/-! Helper lemmas shared by several claims. -/

/-- Membership in the selection flips after one toggle of the same id. -/
theorem contains_handleOnChange (l : List String) (id : String) :
    (handleOnChange l id).contains id = !(l.contains id) := by
  by_cases h : id ∈ l
  · have hc : l.contains id = true := by
      simpa using h
    simp only [handleOnChange, hc, if_pos]
    simp [List.mem_filter]
  · have hc : l.contains id = false := by
      simpa using h
    simp [handleOnChange, hc, h]

/-- The values stored in the query's token entries are exactly the
selected ids projected through `contract ++ ":" ++ id`, in order. -/
theorem buildQuery_values (taker contract : String) (sel : List String) :
    (buildQuery taker contract sel).tokenEntries.map Prod.snd =
      sel.map (fun id => contract ++ ":" ++ id) := by
  simp only [buildQuery, List.map_map]
  have h :
      (Prod.snd ∘ fun p : Nat × String =>
          ("tokens[" ++ toString p.1 ++ "]", contract ++ ":" ++ p.2)) =
        (fun id => contract ++ ":" ++ id) ∘ Prod.snd := by
    funext p
    rfl
  rw [h, ← List.map_map, List.enum_map_snd]

/-- Taking the finset of a mapped list is the image of the list's finset. -/
theorem toFinset_list_map {α β : Type} [DecidableEq α] [DecidableEq β]
    (l : List α) (f : α → β) :
    (l.map f).toFinset = l.toFinset.image f := by
  apply Finset.ext
  intro b
  simp

/-! Claims. -/

/-- C9: for every item id, every starting selection state and every count
n, applying the toggle n times leaves membership unchanged when n is even
and flips it when n is odd. -/
theorem c9_toggle_parity (l : List String) (id : String) (n : Nat) :
    ((fun s => handleOnChange s id)^[n] l).contains id =
      (if Even n then l.contains id else !(l.contains id)) := by
  induction n with
  | zero => simp
  | succ k ih =>
    rw [Function.iterate_succ_apply', contains_handleOnChange, ih]
    by_cases hk : Even k
    · simp [hk, Nat.even_add_one]
    · simp [hk, Nat.even_add_one]

/-- C5: whenever the active network id differs from the required id 4,
the Buy Tokens click aborts after alerting: the wrong-network alert is
raised, loading ends false, the progress text is untouched, no observer
message is sent, nothing is thrown, and neither `buy` nor the external
process is invoked. -/
theorem c5_wrong_network (inp : ClickInput) (h : inp.activeChainId ≠ some 4) :
    buyTokensClick inp =
      { alerts := [wrongNetworkAlert]
        buyInvoked := false
        processInvoked := false
        messages := []
        progressText := inp.progressText
        loading := false
        thrownOut := none
        consoleErrors := [] } := by
  have hb : (inp.activeChainId != some 4) = true := by
    simpa using h
  simp [buyTokensClick, hb]

/-- C5 witness: with active network 1 and required network 4 the click
aborts with the wrong-network alert and the executor is never invoked. -/
theorem c5_wrong_network_witness :
    (some 1 ≠ some 4) ∧
    buyTokensClick
        { activeChainId := some 1
          accountAddress := some "0xabc"
          isConnected := true
          signerPresent := true
          contract := "0xC"
          selectedTokenIds := ["1"]
          progressText := "old"
          run := { events := [], thrown := none } } =
      { alerts := [wrongNetworkAlert]
        buyInvoked := false
        processInvoked := false
        messages := []
        progressText := "old"
        loading := false
        thrownOut := none
        consoleErrors := [] } :=
  ⟨by decide,
   c5_wrong_network
     { activeChainId := some 1
       accountAddress := some "0xabc"
       isConnected := true
       signerPresent := true
       contract := "0xC"
       selectedTokenIds := ["1"]
       progressText := "old"
       run := { events := [], thrown := none } }
     (by decide)⟩

/-- C7: `buy` raises the missing-signer `ReferenceError` exactly when the
signer is absent: with no signer it raises it without contacting the
execution process and without emitting any message, and with a signer
present it never raises an error of its own (its only failures are
re-thrown process errors). -/
theorem c7_missing_signer :
    (∀ (q : BuyingQuery) (run : ProcRun),
        (buy q false run).result =
            Except.error (BuyError.raised (JsError.reference "Missing a signer")) ∧
          (buy q false run).invokedProcess = false ∧
          (buy q false run).messages = []) ∧
    (∀ (q : BuyingQuery) (run : ProcRun) (e : JsError),
        (buy q true run).result ≠ Except.error (BuyError.raised e)) := by
  constructor
  · intro q run
    exact ⟨rfl, rfl, rfl⟩
  · intro q run e
    unfold buy
    cases run.thrown <;> simp

/-- C8: for every non-empty selection, the set of encoded item strings in
the built query is the image of the selected ids under
`contract ++ ":" ++ id`, and two selections with the same underlying set
of ids (different toggle orders) yield the same set of encoded strings. -/
theorem c8_encoded_items (taker contract : String) (sel1 sel2 : List String)
    (hne : sel1 ≠ []) (hset : sel1.toFinset = sel2.toFinset) :
    ((buildQuery taker contract sel1).tokenEntries.map Prod.snd).toFinset =
        sel1.toFinset.image (fun id => contract ++ ":" ++ id) ∧
      ((buildQuery taker contract sel1).tokenEntries.map Prod.snd).toFinset =
        ((buildQuery taker contract sel2).tokenEntries.map Prod.snd).toFinset := by
  rw [buildQuery_values, buildQuery_values, toFinset_list_map,
    toFinset_list_map, hset]
  exact ⟨rfl, rfl⟩

/-- C8 witness: selection `{A, B}` with contract `0xC` encodes to exactly
the set containing "0xC:A" and "0xC:B", the same for toggle order
`["A", "B"]` as for `["B", "A"]`. -/
theorem c8_encoded_items_witness :
    (["A", "B"] ≠ ([] : List String)) ∧
      (["A", "B"] : List String).toFinset = (["B", "A"] : List String).toFinset ∧
      ((buildQuery "0xT" "0xC" ["A", "B"]).tokenEntries.map Prod.snd).toFinset =
        (["A", "B"] : List String).toFinset.image (fun id => "0xC" ++ ":" ++ id) ∧
      ((buildQuery "0xT" "0xC" ["A", "B"]).tokenEntries.map Prod.snd).toFinset =
        ((buildQuery "0xT" "0xC" ["B", "A"]).tokenEntries.map Prod.snd).toFinset ∧
      ((buildQuery "0xT" "0xC" ["A", "B"]).tokenEntries.map Prod.snd).toFinset =
        ({"0xC:A", "0xC:B"} : Finset String) := by
  refine ⟨by decide, by decide, ?_, ?_, by decide⟩
  · exact (c8_encoded_items "0xT" "0xC" ["A", "B"] ["B", "A"]
      (by decide) (by decide)).1
  · exact (c8_encoded_items "0xT" "0xC" ["A", "B"] ["B", "A"]
      (by decide) (by decide)).2

/-- C10: the catalog filter keeps exactly the fetched tokens whose floor
ask price is present and nonzero (JavaScript truthiness), the Load-tokens
handler stores exactly that filtered list as the selectable tokens, and a
token priced exactly 0 is never among them. -/
theorem c10_falsy_price_filtered :
    (∀ (tokens : List Token) (t : Token),
        t ∈ filterTokens tokens ↔
          t ∈ tokens ∧ t.floorAskPrice ≠ none ∧ t.floorAskPrice ≠ some 0) ∧
      (∀ (fetched : List Token) (prev : List String),
        (loadTokensClick fetched prev).tokens = filterTokens fetched) ∧
      (∀ (tokens : List Token) (t : Token),
        t.floorAskPrice = some 0 → t ∉ filterTokens tokens) := by
  have hmem : ∀ (tokens : List Token) (t : Token),
      t ∈ filterTokens tokens ↔
        t ∈ tokens ∧ t.floorAskPrice ≠ none ∧ t.floorAskPrice ≠ some 0 := by
    intro tokens t
    rw [filterTokens, List.mem_filter]
    cases hp : t.floorAskPrice with
    | none => simp [jsTruthyPrice, hp]
    | some q => simp [jsTruthyPrice, hp]
  refine ⟨hmem, fun fetched prev => rfl, ?_⟩
  intro tokens t hzero hmem'
  exact ((hmem tokens t).mp hmem').2.2 (by rw [hzero])

/-- C10 witness: a token priced 0 and a token with no price are dropped
by the filter while a token priced 1 is kept and stored by the handler. -/
theorem c10_falsy_price_filtered_witness :
    ({ contract := "0xC", tokenId := "1", floorAskPrice := some 1 : Token} ∈
        filterTokens
          [{ contract := "0xC", tokenId := "1", floorAskPrice := some 1 },
           { contract := "0xC", tokenId := "2", floorAskPrice := some 0 },
           { contract := "0xC", tokenId := "3", floorAskPrice := none }] ↔
      ({ contract := "0xC", tokenId := "1", floorAskPrice := some 1 : Token} ∈
          ([{ contract := "0xC", tokenId := "1", floorAskPrice := some 1 },
            { contract := "0xC", tokenId := "2", floorAskPrice := some 0 },
            { contract := "0xC", tokenId := "3", floorAskPrice := none }] : List Token) ∧
        (some 1 : Option ℚ) ≠ none ∧ (some 1 : Option ℚ) ≠ some 0)) ∧
      ({ contract := "0xC", tokenId := "2", floorAskPrice := some 0 : Token} ∉
        filterTokens
          [{ contract := "0xC", tokenId := "1", floorAskPrice := some 1 },
           { contract := "0xC", tokenId := "2", floorAskPrice := some 0 },
           { contract := "0xC", tokenId := "3", floorAskPrice := none }]) :=
  ⟨c10_falsy_price_filtered.1
      [{ contract := "0xC", tokenId := "1", floorAskPrice := some 1 },
       { contract := "0xC", tokenId := "2", floorAskPrice := some 0 },
       { contract := "0xC", tokenId := "3", floorAskPrice := none }]
      { contract := "0xC", tokenId := "1", floorAskPrice := some 1 },
   c10_falsy_price_filtered.2.2
      [{ contract := "0xC", tokenId := "1", floorAskPrice := some 1 },
       { contract := "0xC", tokenId := "2", floorAskPrice := some 0 },
       { contract := "0xC", tokenId := "3", floorAskPrice := none }]
      { contract := "0xC", tokenId := "2", floorAskPrice := some 0 }
      rfl⟩

/-- Unfolding one step of `applyNotifications`. -/
theorem applyNotifications_cons (n : Option (List ExecutionStep))
    (ns : List (Option (List ExecutionStep))) (cur : String) :
    applyNotifications (n :: ns) cur =
      applyNotifications ns
        (match setStateEmit n with
         | none => cur
         | some m => m) := rfl

/-- Dropping the head under `getLast?.getD`: the head only matters when
the tail is empty. -/
theorem getLast?_getD_cons (x cur : String) (l : List String) :
    ((x :: l).getLast?).getD cur = (l.getLast?).getD x := by
  induction l generalizing x cur with
  | nil => rfl
  | cons y ys ih => rw [List.getLast?_cons_cons, ih y cur, ih y x]

/-- The overwrite fold keeps exactly the last emitted message. -/
theorem applyNotifications_eq_getLast
    (notifs : List (Option (List ExecutionStep))) (cur : String) :
    applyNotifications notifs cur =
      ((notifs.filterMap setStateEmit).getLast?).getD cur := by
  induction notifs generalizing cur with
  | nil => rfl
  | cons n ns ih =>
    rw [applyNotifications_cons, List.filterMap_cons]
    cases h : setStateEmit n with
    | none => exact ih cur
    | some m =>
      show applyNotifications ns m =
        ((m :: ns.filterMap setStateEmit).getLast?).getD cur
      rw [getLast?_getD_cons]
      exact ih m

/-- C6: (1) across a stream of step-notifications the displayed progress
text is the most recent emitted message, each emission overwriting the
prior one, none retained or replayed; (2) a notification whose steps hold
no incomplete step emits nothing; (3) a notification whose current
(first-listed) incomplete step is `s` emits exactly `s`'s message. -/
theorem c6_most_recent_incomplete :
    (∀ (notifs : List (Option (List ExecutionStep))) (cur : String),
        applyNotifications notifs cur =
          ((notifs.filterMap setStateEmit).getLast?).getD cur) ∧
      (∀ steps : List ExecutionStep,
        setStateEmit (some steps) = none ↔
          ∀ s ∈ steps, s.status ≠ StepStatus.incomplete) ∧
      (∀ (steps : List ExecutionStep) (s : ExecutionStep),
        steps.find? (fun x => x.status == StepStatus.incomplete) = some s →
          setStateEmit (some steps) = some (s.message.getD "")) := by
  refine ⟨applyNotifications_eq_getLast, ?_, ?_⟩
  · intro steps
    simp [setStateEmit, List.find?_eq_none]
  · intro steps s h
    simp [setStateEmit, h]

/-- C6 witness: over the stream `[inc "Approving"]`, `[inc "Confirming"]`,
`[complete]` the displayed text ends as "Confirming"; the all-complete
notification emits nothing; and a notification whose first incomplete
step says "Approving" emits "Approving". -/
theorem c6_most_recent_incomplete_witness :
    applyNotifications
        [some [{ status := StepStatus.incomplete, message := some "Approving" }],
         some [{ status := StepStatus.incomplete, message := some "Confirming" }],
         some [{ status := StepStatus.complete, message := some "Done" }]] "" =
      (((([some [{ status := StepStatus.incomplete, message := some "Approving" }],
          some [{ status := StepStatus.incomplete, message := some "Confirming" }],
          some [{ status := StepStatus.complete, message := some "Done" }]] :
            List (Option (List ExecutionStep))).filterMap
            setStateEmit).getLast?).getD "") ∧
      (setStateEmit (some [{ status := StepStatus.complete, message := some "Done" }]) =
        none ↔
        ∀ s ∈ [({ status := StepStatus.complete, message := some "Done" } :
            ExecutionStep)], s.status ≠ StepStatus.incomplete) ∧
      setStateEmit
          (some [{ status := StepStatus.incomplete, message := some "Approving" }]) =
        some "Approving" :=
  ⟨c6_most_recent_incomplete.1
      [some [{ status := StepStatus.incomplete, message := some "Approving" }],
       some [{ status := StepStatus.incomplete, message := some "Confirming" }],
       some [{ status := StepStatus.complete, message := some "Done" }]] "",
   c6_most_recent_incomplete.2.1
      [{ status := StepStatus.complete, message := some "Done" }],
   c6_most_recent_incomplete.2.2
      [{ status := StepStatus.incomplete, message := some "Approving" }]
      { status := StepStatus.incomplete, message := some "Approving" }
      (by decide)⟩

/-- C4: (1) for every protocol-conforming run of the external process —
any sequence of step-notifications followed by one terminal callback
(`handleSuccess` or `handleError`) — the observer receives zero or more
InProgress messages followed by exactly one terminal message, with
nothing after the terminal; (2) a submission aborted by the silent
preconditions (wrong network or absent account) delivers zero observer
messages; (3) so does the missing-signer throw. -/
theorem c4_observer_protocol :
    (∀ (ns : List (Option (List ExecutionStep))) (t : ProcEvent),
        (t = ProcEvent.success ∨ ∃ m, t = ProcEvent.error m) →
        ∃ (ps : List String) (term : ObserverMsg),
          runObserverMsgs (ns.map ProcEvent.notify ++ [t]) =
              ps.map ObserverMsg.inProgress ++ [term] ∧
            (term = ObserverMsg.terminalSuccess ∨
              ∃ m, term = ObserverMsg.terminalError m)) ∧
      (∀ inp : ClickInput,
        (inp.activeChainId ≠ some 4 ∨ inp.accountAddress = none) →
          (buyTokensClick inp).messages = []) ∧
      (∀ (q : BuyingQuery) (run : ProcRun), (buy q false run).messages = []) := by
  refine ⟨?_, ?_, fun q run => rfl⟩
  · intro ns t ht
    have hns : (ns.map ProcEvent.notify).filterMap eventObserverMsg =
        (ns.filterMap setStateEmit).map ObserverMsg.inProgress := by
      rw [List.filterMap_map, List.map_filterMap]
      rfl
    rcases ht with rfl | ⟨m, rfl⟩
    · exact ⟨ns.filterMap setStateEmit, ObserverMsg.terminalSuccess,
        by rw [runObserverMsgs, List.filterMap_append, hns]; rfl, Or.inl rfl⟩
    · exact ⟨ns.filterMap setStateEmit, ObserverMsg.terminalError m,
        by rw [runObserverMsgs, List.filterMap_append, hns]; rfl,
        Or.inr ⟨m, rfl⟩⟩
  · intro inp h
    by_cases hc : inp.activeChainId = some 4
    · have hb : (inp.activeChainId != some 4) = false := by
        simp [hc]
      rcases h with h | h
      · exact absurd hc h
      · simp [buyTokensClick, hb, h]
    · have hb : (inp.activeChainId != some 4) = true := by
        simpa using hc
      simp [buyTokensClick, hb]

/-- C4 witness: a run notifying one incomplete step then succeeding
yields InProgress* then one terminal; a click with no account delivers
zero messages. -/
theorem c4_observer_protocol_witness :
    (∃ (ps : List String) (term : ObserverMsg),
        runObserverMsgs
            (([some [{ status := StepStatus.incomplete, message := some "Approving" }]] :
                List (Option (List ExecutionStep))).map ProcEvent.notify ++
              [ProcEvent.success]) =
            ps.map ObserverMsg.inProgress ++ [term] ∧
          (term = ObserverMsg.terminalSuccess ∨
            ∃ m, term = ObserverMsg.terminalError m)) ∧
      (buyTokensClick
          { activeChainId := some 4
            accountAddress := none
            isConnected := true
            signerPresent := true
            contract := "0xC"
            selectedTokenIds := ["1"]
            progressText := ""
            run := { events := [], thrown := none } }).messages = [] :=
  ⟨c4_observer_protocol.1
      [some [{ status := StepStatus.incomplete, message := some "Approving" }]]
      ProcEvent.success (Or.inl rfl),
   c4_observer_protocol.2.1
      { activeChainId := some 4
        accountAddress := none
        isConnected := true
        signerPresent := true
        contract := "0xC"
        selectedTokenIds := ["1"]
        progressText := ""
        run := { events := [], thrown := none } }
      (Or.inr rfl)⟩

/-- C1 counterexample: with an empty selection and every other
precondition satisfied, the click handler does not reject — it invokes
`buy`, which contacts the external process with a query holding no token
entries, refuting "the submit operation rejects the request and the
execution process is never called". -/
theorem c1_counterexample :
    (buyTokensClick
        { activeChainId := some 4
          accountAddress := some "0xabc"
          isConnected := true
          signerPresent := true
          contract := "0xC"
          selectedTokenIds := []
          progressText := ""
          run := { events := [], thrown := none } }).buyInvoked = true ∧
      (buyTokensClick
          { activeChainId := some 4
            accountAddress := some "0xabc"
            isConnected := true
            signerPresent := true
            contract := "0xC"
            selectedTokenIds := []
            progressText := ""
            run := { events := [], thrown := none } }).processInvoked = true ∧
      (buildQuery "0xabc" "0xC" []).tokenEntries = [] :=
  ⟨rfl, rfl, rfl⟩

/-- C1 amended: the submit operation performs no empty-selection check:
for every click whose network, account and signer preconditions pass,
`buy` is invoked and the external process is contacted even when the
selection is empty, the query then carrying the taker and no token
entries. -/
theorem c1_empty_selection_not_rejected (inp : ClickInput) (a : String)
    (hchain : inp.activeChainId = some 4)
    (hacct : inp.accountAddress = some a)
    (hsig : inp.signerPresent = true)
    (hsel : inp.selectedTokenIds = []) :
    (buyTokensClick inp).buyInvoked = true ∧
      (buyTokensClick inp).processInvoked = true ∧
      (buildQuery a inp.contract inp.selectedTokenIds).tokenEntries = [] := by
  have hb : (inp.activeChainId != some 4) = false := by
    simp [hchain]
  refine ⟨?_, ?_, by rw [hsel]; rfl⟩ <;>
    simp [buyTokensClick, hb, hacct, buy, hsig] <;>
    cases h : inp.run.thrown <;> simp

/-- C1 amended witness: a concrete empty-selection click that passes the
preconditions invokes `buy` and the process. -/
theorem c1_empty_selection_not_rejected_witness :
    (buyTokensClick
        { activeChainId := some 4
          accountAddress := some "0xdef"
          isConnected := true
          signerPresent := true
          contract := "0xD"
          selectedTokenIds := []
          progressText := ""
          run := { events := [ProcEvent.success], thrown := none } }).buyInvoked = true ∧
      (buyTokensClick
          { activeChainId := some 4
            accountAddress := some "0xdef"
            isConnected := true
            signerPresent := true
            contract := "0xD"
            selectedTokenIds := []
            progressText := ""
            run := { events := [ProcEvent.success], thrown := none } }).processInvoked = true ∧
      (buildQuery "0xdef" "0xD" []).tokenEntries = [] :=
  c1_empty_selection_not_rejected
    { activeChainId := some 4
      accountAddress := some "0xdef"
      isConnected := true
      signerPresent := true
      contract := "0xD"
      selectedTokenIds := []
      progressText := ""
      run := { events := [ProcEvent.success], thrown := none } }
    "0xdef" rfl rfl rfl rfl

/-- C2 counterexample: loading a fresh catalog while id "1" is selected
leaves "1" selected — the fetch does not clear the selection, refuting
"after the load-tokens operation replaces the item set, the set of
selected item ids is empty". -/
theorem c2_counterexample :
    (loadTokensClick
          [{ contract := "0xC", tokenId := "2", floorAskPrice := some 1 }]
          ["1"]).selectedTokenIds = ["1"] ∧
      (loadTokensClick
          [{ contract := "0xC", tokenId := "2", floorAskPrice := some 1 }]
          ["1"]).selectedTokenIds ≠ [] :=
  ⟨rfl, by decide⟩

/-- C2 amended: the load-tokens operation never writes the selection: for
every fetch result and every prior selection, the selected ids after the
load equal the selected ids before it (stale ids survive the fetch). -/
theorem c2_fetch_keeps_selection (fetched : List Token)
    (prev : List String) :
    (loadTokensClick fetched prev).selectedTokenIds = prev := rfl

/-- C3 counterexample: when the external process rejects immediately
(no callbacks, thrown error), the click handler's `setLoading(false)` is
skipped — loading stays `true` (stuck in Running) and no terminal Error
message reaches the observer, refuting "routes the submission into the
Failed terminal state rather than leaving it stuck in Running"; the error
is merely logged and re-thrown. -/
theorem c3_counterexample :
    (buyTokensClick
        { activeChainId := some 4
          accountAddress := some "0xabc"
          isConnected := true
          signerPresent := true
          contract := "0xC"
          selectedTokenIds := ["1"]
          progressText := ""
          run := { events := [], thrown := some (JsError.generic "boom") } }).loading
        = true ∧
      (buyTokensClick
          { activeChainId := some 4
            accountAddress := some "0xabc"
            isConnected := true
            signerPresent := true
            contract := "0xC"
            selectedTokenIds := ["1"]
            progressText := ""
            run := { events := [],
                     thrown := some (JsError.generic "boom") } }).messages = [] :=
  ⟨rfl, rfl⟩

/-- C3 amended: for every invocation of the execution process that throws,
the Executor catches the error, records it (`console.error`), and
re-surfaces the original error; but the submission is not routed into a
Failed state: the re-thrown error escapes the click handler, the loading
flag is left `true`, and the only observer messages are those the process
itself emitted before throwing. -/
theorem c3_throw_recorded_but_stuck (inp : ClickInput) (a : String)
    (e : JsError)
    (hchain : inp.activeChainId = some 4)
    (hacct : inp.accountAddress = some a)
    (hsig : inp.signerPresent = true)
    (hthrown : inp.run.thrown = some e) :
    (buyTokensClick inp).consoleErrors = [e] ∧
      (buyTokensClick inp).thrownOut = some (BuyError.rethrown e) ∧
      (buyTokensClick inp).loading = true ∧
      (buyTokensClick inp).messages = runObserverMsgs inp.run.events := by
  have hb : (inp.activeChainId != some 4) = false := by
    simp [hchain]
  refine ⟨?_, ?_, ?_, ?_⟩ <;> simp [buyTokensClick, hb, hacct, buy, hsig, hthrown]

/-- C3 amended witness: a process that notifies one incomplete step then
throws is logged, re-surfaced, and leaves loading stuck at `true`. -/
theorem c3_throw_recorded_but_stuck_witness :
    (buyTokensClick
        { activeChainId := some 4
          accountAddress := some "0xabc"
          isConnected := true
          signerPresent := true
          contract := "0xC"
          selectedTokenIds := ["1"]
          progressText := ""
          run := { events :=
                     [ProcEvent.notify (some [{ status := StepStatus.incomplete,
                                                message := some "Approving" }])],
                   thrown := some (JsError.generic "boom") } }).consoleErrors =
        [JsError.generic "boom"] ∧
      (buyTokensClick
          { activeChainId := some 4
            accountAddress := some "0xabc"
            isConnected := true
            signerPresent := true
            contract := "0xC"
            selectedTokenIds := ["1"]
            progressText := ""
            run := { events :=
                       [ProcEvent.notify (some [{ status := StepStatus.incomplete,
                                                  message := some "Approving" }])],
                     thrown := some (JsError.generic "boom") } }).thrownOut =
        some (BuyError.rethrown (JsError.generic "boom")) ∧
      (buyTokensClick
          { activeChainId := some 4
            accountAddress := some "0xabc"
            isConnected := true
            signerPresent := true
            contract := "0xC"
            selectedTokenIds := ["1"]
            progressText := ""
            run := { events :=
                       [ProcEvent.notify (some [{ status := StepStatus.incomplete,
                                                  message := some "Approving" }])],
                     thrown := some (JsError.generic "boom") } }).loading = true ∧
      (buyTokensClick
          { activeChainId := some 4
            accountAddress := some "0xabc"
            isConnected := true
            signerPresent := true
            contract := "0xC"
            selectedTokenIds := ["1"]
            progressText := ""
            run := { events :=
                       [ProcEvent.notify (some [{ status := StepStatus.incomplete,
                                                  message := some "Approving" }])],
                     thrown := some (JsError.generic "boom") } }).messages =
        runObserverMsgs
          [ProcEvent.notify (some [{ status := StepStatus.incomplete,
                                     message := some "Approving" }])] :=
  c3_throw_recorded_but_stuck
    { activeChainId := some 4
      accountAddress := some "0xabc"
      isConnected := true
      signerPresent := true
      contract := "0xC"
      selectedTokenIds := ["1"]
      progressText := ""
      run := { events :=
                 [ProcEvent.notify (some [{ status := StepStatus.incomplete,
                                            message := some "Approving" }])],
               thrown := some (JsError.generic "boom") } }
    "0xabc" (JsError.generic "boom") rfl rfl rfl rfl

end Buying
